import Mathlib

/-!
# Verification of the CORE_ADE dynamic search backend

Shallow embedding of the FastAPI backend in `run_app_dynamic.py` and of the
underlying search/export/classification engine (`DynamicSchemaManager`), with
theorems settling the specification claims.

Records (rows of a table, JSON objects) are modelled as ordered association
lists of string keys and string values, matching Python's insertion-ordered
dicts. The engine class `DynamicSchemaManager` is imported by
`run_app_dynamic.py` from `database_operations.dynamic_schema_manager`, which
is not part of the repository snapshot; its operations are modelled from the
spec where indicated, while the route handlers themselves are translated
directly from `run_app_dynamic.py`.
-/

namespace CoreADE

/-- A record / row: an insertion-ordered mapping from field names to values,
as a Python dict of a SQLite row. -/
abbrev Rec := List (String × String)

/-- Lookup of a key in a record (Python `record[k]` / `record.get(k)`). -/
def lookupD (r : Rec) (k : String) : Option String :=
  match r with
  | [] => none
  | (k', v) :: rest => if k' = k then some v else lookupD rest k

/-- Python dict assignment `record[k] = v`: overwrite in place if the key is
present (keeping its position), otherwise append at the end. -/
def dictSet (r : Rec) (k v : String) : Rec :=
  match r with
  | [] => [(k, v)]
  | (k', v') :: rest =>
      if k' = k then (k, v) :: rest else (k', v') :: dictSet rest k v

/-- A Python exception as it flows through the route handlers' `try/except`
blocks: FastAPI's `HTTPException(status_code, detail)`, a `ValueError`, or
any other exception. -/
inductive PyExc where
  | http (status : Nat) (detail : String)
  | valueError (msg : String)
  | other (msg : String)
  deriving Repr, DecidableEq

/-- Python `str(e)`: Starlette's `HTTPException.__str__` renders
`"{status_code}: {detail}"`; for the other exceptions, the message. -/
def excStr : PyExc → String
  | PyExc.http s d => toString s ++ ": " ++ d
  | PyExc.valueError m => m
  | PyExc.other m => m

/-! ## Page-window parameter handling (`run_app_dynamic.py`)

The POST route `search_table` reads `size` and `from` from the JSON body and
then runs (lines 170-174):

    if size > 10000:
        size = 10000
    if from_ < 0:
        from_ = 0

The GET route `search_table_simple` instead declares FastAPI validators
(lines 221-222): `size: int = Query(10, ge=1, le=10000)` and
`from_: int = Query(0, ge=0, alias="from")`; a request violating them is
rejected with a validation error before the handler runs. -/

/-- The POST `search_table` validation block (lines 170-174): `size` is capped
at 10000 from above and `from_` is raised to 0 from below; no other change. -/
def postSearchWindow (size from_ : Int) : Int × Int :=
  let size := if size > 10000 then 10000 else size
  let from_ := if from_ < 0 then 0 else from_
  (size, from_)

/-- The GET `search_table_simple` FastAPI validators (lines 221-222):
`1 ≤ size ≤ 10000` and `0 ≤ from_`; a request is rejected unless this holds. -/
def getSearchValidates (size from_ : Int) : Bool :=
  (1 ≤ size && size ≤ 10000) && (0 ≤ from_)

/-! ## Elasticsearch envelope of the POST search route

`search_table` (lines 188-207) wraps the engine's page of hits into an
Elasticsearch-style envelope: each hit at page position `i` becomes
`{'_index': table_name, '_type': '_doc', '_id': str(i), '_score': 1.0,
'_source': hit}`. -/

/-- One entry of `hits.hits` in the Elasticsearch envelope. -/
structure EsHit where
  index : String
  doctype : String
  id : String
  score : ℚ
  source : Rec
  deriving Repr, DecidableEq

/-- The `hits.hits` list built by `search_table` (lines 194-203) from the
page of hits returned by the engine: `enumerate(result.hits)` with
`_id = str(i)` and `_score = 1.0`. -/
def esHits (tableName : String) (pageHits : List Rec) : List EsHit :=
  pageHits.enum.map fun p =>
    { index := tableName, doctype := "_doc", id := toString p.1,
      score := 1, source := p.2 }

/-! ## Query Executor (spec-modelled)

`schema_manager.search` lives in `database_operations.dynamic_schema_manager`,
which is not part of the repository snapshot (only its caller
`run_app_dynamic.py` is). It is modelled here from spec §4.5: the translated
predicate and the sort order are parameters (`pred`, `le`); the executor
filters the table's rows, computes `total` as the full matched-set cardinality
before windowing, sorts stably, then applies the `from`/`size` window. -/

/-- Stable insertion of a row into a sorted list (step 5 of §4.5). -/
def insertRow (le : Rec → Rec → Bool) (x : Rec) : List Rec → List Rec
  | [] => [x]
  | y :: ys => if le x y then x :: y :: ys else y :: insertRow le x ys

/-- Stable insertion sort of the matched rows by the request's sort order. -/
def sortRows (le : Rec → Rec → Bool) : List Rec → List Rec
  | [] => []
  | x :: xs => insertRow le x (sortRows le xs)

/-- The part of `SearchResult` the pagination claims are about. -/
structure SearchResultM where
  total : Nat
  hits : List Rec
  deriving Repr, DecidableEq

/-- Modelled from the spec: `DynamicSchemaManager.search` is not under `src/`.
Per §4.5, steps 3-6: AND-filter the rows by the translated predicate, compute
`total` over the full matched set before applying `from`/`size`, sort, then
window. -/
def searchModel (rows : List Rec) (pred : Rec → Bool) (le : Rec → Rec → Bool)
    (from_ size : Nat) : SearchResultM :=
  let matched := rows.filter pred
  let sorted := sortRows le matched
  { total := matched.length
    hits := (sorted.drop from_).take size }

/-- Concatenation of the hit pages of a sequence of consecutive windows: the
window sizes are given by `sizes`, the first window starting at `start`, each
further window starting where the previous ended (non-overlapping, no gaps). -/
def concatPages (rows : List Rec) (pred : Rec → Bool) (le : Rec → Rec → Bool) :
    List Nat → Nat → List Rec
  | [], _ => []
  | s :: ss, start =>
      (searchModel rows pred le start s).hits ++
        concatPages rows pred le ss (start + s)

/-- Concrete sample rows used to instantiate hypotheses of the pagination
theorems. -/
def sampleRows : List Rec :=
  [[("id", "1"), ("full_text", "alpha")],
   [("id", "2"), ("full_text", "bravo")],
   [("id", "3"), ("full_text", "charlie")]]

/-! ## Classification ranking (spec-modelled)

`highest_classification` of a table is computed inside
`DynamicSchemaManager.get_schema_info`, not under `src/`; the `/tables` route
(lines 106-115) only copies `table_info['highest_classification']` into each
descriptor. Modelled from spec §4.1 rule 3 and §3: sampled values are ranked
against the fixed ordered vocabulary UNCLASSIFIED < CONFIDENTIAL < SECRET <
TOP SECRET; values outside the vocabulary are ignored for ranking;
`highest_classification` is the maximum ranked value found, or the default
(`UNCLASSIFIED`) if none. -/

/-- Rank of a value in the fixed ordered classification vocabulary; `none`
for values outside the vocabulary (ignored for ranking). -/
def classRank (v : String) : Option Nat :=
  if v = "UNCLASSIFIED" then some 0
  else if v = "CONFIDENTIAL" then some 1
  else if v = "SECRET" then some 2
  else if v = "TOP SECRET" then some 3
  else none

/-- Maximum-ranked classification value of a sample, together with its rank. -/
def maxClass : List String → Option (Nat × String)
  | [] => none
  | v :: vs =>
      match classRank v with
      | none => maxClass vs
      | some r =>
          match maxClass vs with
          | none => some (r, v)
          | some (r', v') => if r' < r then some (r, v) else some (r', v')

/-- Modelled from the spec: the table descriptor's `highest_classification` —
the maximum of the fixed ordered vocabulary found among the sampled values of
a classification-like column, defaulting to `UNCLASSIFIED` when no ranked
value occurs. -/
def highestClassification (values : List String) : String :=
  match maxClass values with
  | some p => p.2
  | none => "UNCLASSIFIED"

/-! ## Geo Export Engine (spec-modelled)

`DynamicSchemaManager.export_kmz` is not under `src/` (only its caller, the
`/export/kml/{table}` route, is). Modelled from spec §4.6: run the §4.5
pipeline with `size = limit`, `from = 0`; for each hit read the coordinate
field and attempt a grid-coordinate parse (the MGRS-to-lat/lon conversion
itself is the parameter `parse`); a parse failure increments `skipped` and
records the row's identity and a reason in `errors`, never aborting the
export; metadata reports `requested` (rows considered), `exported`
(placemarks written), `skipped` and the error list. -/

/-- A placemark of the produced geospatial document: a parsed coordinate and
the row's non-coordinate fields as extended attributes. -/
structure Placemark where
  lat : ℚ
  lon : ℚ
  attrs : Rec
  deriving Repr, DecidableEq

/-- Metadata of an export. -/
structure ExportMeta where
  requested : Nat
  exported : Nat
  skipped : Nat
  errors : List (String × String)
  deriving Repr, DecidableEq

/-- The row identity recorded for a skipped row: its id-field value. -/
def rowIdOf (idField : String) (r : Rec) : String :=
  (lookupD r idField).getD "unknown"

/-- Whether the per-row coordinate conversion fails for `r`: the coordinate
field is missing or its value does not parse as a grid coordinate. -/
def parseFails (parse : String → Option (ℚ × ℚ)) (coordField : String)
    (r : Rec) : Bool :=
  match lookupD r coordField with
  | none => true
  | some s => (parse s).isNone

/-- The error entry recorded for a skipped row: its identity and the skip
reason. -/
def failEntry (idField coordField : String) (r : Rec) : String × String :=
  match lookupD r coordField with
  | none => (rowIdOf idField r, "missing coordinate field")
  | some s => (rowIdOf idField r, "unparsable coordinate: " ++ s)

/-- Per-row conversion loop of the export: each considered row either becomes
a placemark or contributes an error entry; no row aborts the loop. -/
def exportRows (parse : String → Option (ℚ × ℚ)) (idField coordField : String) :
    List Rec → List Placemark × List (String × String)
  | [] => ([], [])
  | r :: rs =>
      let rest := exportRows parse idField coordField rs
      match lookupD r coordField with
      | none => (rest.1, (rowIdOf idField r, "missing coordinate field") :: rest.2)
      | some s =>
          match parse s with
          | some c =>
              ({ lat := c.1, lon := c.2,
                 attrs := r.filter (fun p => p.1 ≠ coordField) } :: rest.1,
               rest.2)
          | none =>
              (rest.1, (rowIdOf idField r, "unparsable coordinate: " ++ s) :: rest.2)

/-- Modelled from the spec: `DynamicSchemaManager.export_kmz` per §4.6 — the
§4.5 pipeline with `size = limit`, `from = 0`, then the per-row conversion
loop; `requested` counts the rows considered (after the limit), `exported`
the placemarks, `skipped` the failures. -/
def export_kmz (rows : List Rec) (pred : Rec → Bool) (le : Rec → Rec → Bool)
    (parse : String → Option (ℚ × ℚ)) (idField coordField : String)
    (limit : Nat) : List Placemark × ExportMeta :=
  let considered := (searchModel rows pred le 0 limit).hits
  let res := exportRows parse idField coordField considered
  (res.1,
   { requested := considered.length, exported := res.1.length,
     skipped := res.2.length, errors := res.2 })

/-- Serialization of one placemark. -/
def kmlPlacemark (p : Placemark) : String :=
  "<Placemark><Point><coordinates>" ++ toString p.lon ++ "," ++
    toString p.lat ++ "</coordinates></Point></Placemark>"

/-- Serialization of the geospatial document: a valid document even with zero
placemarks (never the empty byte string). -/
def kmlDoc (ps : List Placemark) : String :=
  "<kml><Document>" ++ String.join (ps.map kmlPlacemark) ++
    "</Document></kml>"

/-- The `/export/kml/{table}` route (`export_kml`, lines 286-326), translated
from `run_app_dynamic.py` with the engine spec-modelled: inside the `try`, a
missing database raises `HTTPException(400)`; the export runs; falsy (empty)
`kml_bytes` raise `HTTPException(400)`; otherwise the document and its
metadata are returned. `except ValueError` maps to 400; the blanket
`except Exception` (which also catches `HTTPException`) maps everything else
to 500 with `str(e)` as detail. -/
def export_kml_route (rows : List Rec) (pred : Rec → Bool)
    (le : Rec → Rec → Bool) (parse : String → Option (ℚ × ℚ))
    (idField coordField : String) (hasDB : Bool) (limit : Nat) :
    Except (Nat × String) (String × ExportMeta) :=
  let body : Except PyExc (String × ExportMeta) :=
    if hasDB = false then Except.error (PyExc.http 400 "No database loaded")
    else
      let res := export_kmz rows pred le parse idField coordField limit
      let kml := kmlDoc res.1
      if kml = "" then Except.error (PyExc.http 400 "Export failed")
      else Except.ok (kml, res.2)
  match body with
  | Except.ok v => Except.ok v
  | Except.error (PyExc.valueError m) => Except.error (400, m)
  | Except.error e => Except.error (500, excStr e)

/-! ## Single-record lookup route -/

/-- The `GET /tables/{table}/records/{id}` route (`get_record`, lines
264-284). Unlike the switch and FTS routes, this handler re-raises
`HTTPException` before its blanket `except Exception`, so the 400/404 raised
inside the `try` reach the client unchanged. The record lookup
`schema_manager.get_record_by_id` is not under `src/` and is modelled as a
total lookup returning the stored row or `None`. Python's `if not record:`
treats both `None` and an empty dict as missing; on success the handler runs
`record['table'] = table_name` and returns the record. -/
def get_record_route (lookup : String → String → Option Rec) (hasDB : Bool)
    (table id : String) : Except (Nat × String) Rec :=
  if hasDB = false then Except.error (400, "No database loaded")
  else
    match lookup table id with
    | none =>
        Except.error (404, "Record " ++ id ++ " not found in table " ++ table)
    | some r =>
        if r.isEmpty then
          Except.error (404, "Record " ++ id ++ " not found in table " ++ table)
        else Except.ok (dictSet r "table" table)

/-- The property C9 claims of a successful single-record lookup: the returned
mapping is the stored record with an additional `table` field — every stored
field keeps its value and `table` maps to the table name. -/
def preservesAndInjects (stored result : Rec) (table : String) : Prop :=
  lookupD result "table" = some table ∧
  ∀ k v, lookupD stored k = some v → lookupD result k = some v

/-! ## FTS index creation route -/

/-- The `POST /tables/{table}/fts` route (`create_fts_index`, lines 328-347),
translated from `run_app_dynamic.py`; `schema_manager.create_fts_index` is
not under `src/` and enters as the boolean-returning parameter `ftsCreate`
(per spec §4.3 it returns `False` non-fatally when the index engine is
unavailable or the table has no free-text fields). Inside the `try`, a
missing database raises `HTTPException(400)` and a `False` result raises
`HTTPException(400)`; the only handler is the blanket `except Exception`,
which also catches `HTTPException` and re-raises everything as 500 with
`str(e)` as detail. -/
def create_fts_index_route (ftsCreate : String → Option (List String) → Bool)
    (hasDB : Bool) (table : String) (fields : Option (List String)) :
    Except (Nat × String) String :=
  let body : Except PyExc String :=
    if hasDB = false then Except.error (PyExc.http 400 "No database loaded")
    else if ftsCreate table fields then
      Except.ok ("FTS5 index created for table " ++ table)
    else
      Except.error (PyExc.http 400
        "Failed to create FTS5 index. Check if FTS5 is available and table has text columns.")
  match body with
  | Except.ok v => Except.ok v
  | Except.error e => Except.error (500, excStr e)

/-! ## Connection/Switch Manager and the switch route -/

/-- Observable content of a connected database: its tables and their rows. -/
structure DB where
  tables : List (String × List Rec)
  deriving Repr, DecidableEq

/-- The global `schema_manager` state: no manager (`None`), a manager with a
live connection to a database, or a manager object whose `connect()` failed
(such an object is created and assigned to the global by the switch route
when no manager existed, lines 496-497, and is truthy in Python). -/
inductive SMState where
  | noDB
  | conn (db : DB)
  | failedConn
  deriving Repr, DecidableEq

/-- Success payload of the switch route. -/
structure SwitchOk where
  success : Bool
  message : String
  dbPath : String
  deriving Repr, DecidableEq

/-- The `POST /switch-database` route (`switch_database_route`, lines
482-511), translated from `run_app_dynamic.py`. `pathExists` models
`os.path.exists`; `connectDB` models both
`DynamicSchemaManager.switch_database` and
`DynamicSchemaManager(path).connect()` (neither under `src/`, spec-modelled
per §4.7: a switch atomically installs the new handle on success and leaves
the previous handle in effect on failure). Inside the `try`, a missing path
raises `HTTPException(404)` and a failed switch raises `HTTPException(500)`;
the only handler is the blanket `except Exception`, which also catches
`HTTPException`, so every raise is re-wrapped as 500 with `str(e)` as detail.
Global-state mutations performed before a raise persist. -/
def switch_database_route (pathExists : String → Bool)
    (connectDB : String → Option DB) (state : SMState)
    (dbPath : Option String) : Except (Nat × String) SwitchOk × SMState :=
  let body : Except PyExc SwitchOk × SMState :=
    match dbPath with
    | none =>
        (Except.error (PyExc.http 404 "Database file not found: None"), state)
    | some p =>
        if pathExists p = false then
          (Except.error (PyExc.http 404 ("Database file not found: " ++ p)),
           state)
        else
          match state with
          | SMState.conn db =>
              match connectDB p with
              | some db' =>
                  (Except.ok ⟨true, "Switched to database: " ++ p, p⟩,
                   SMState.conn db')
              | none =>
                  (Except.error (PyExc.http 500 "Failed to switch database"),
                   SMState.conn db)
          | SMState.failedConn =>
              match connectDB p with
              | some db' =>
                  (Except.ok ⟨true, "Switched to database: " ++ p, p⟩,
                   SMState.conn db')
              | none =>
                  (Except.error (PyExc.http 500 "Failed to switch database"),
                   SMState.failedConn)
          | SMState.noDB =>
              match connectDB p with
              | some db' =>
                  (Except.ok ⟨true, "Switched to database: " ++ p, p⟩,
                   SMState.conn db')
              | none =>
                  (Except.error (PyExc.http 500 "Failed to switch database"),
                   SMState.failedConn)
  match body with
  | (Except.ok v, st) => (Except.ok v, st)
  | (Except.error e, st) => (Except.error (500, excStr e), st)

/-- The simple search route's response as a function of the schema-manager
state: the route reads only that state and the request. The `failedConn`
value is never exercised by the theorems (per §4.7 that state is not supposed
to be observable); it is given an internal-error value only to make the
function total. -/
def stateSearchResp (st : SMState) (table : String) (pred : Rec → Bool)
    (le : Rec → Rec → Bool) (from_ size : Nat) :
    Except (Nat × String) SearchResultM :=
  match st with
  | SMState.noDB => Except.error (400, "No database loaded")
  | SMState.failedConn => Except.error (500, "database connection unavailable")
  | SMState.conn db =>
      match db.tables.find? (fun t => t.1 == table) with
      | none => Except.error (404, "Table not found")
      | some t => Except.ok (searchModel t.2 pred le from_ size)

/-! ## Concrete fixtures for the witnesses -/

/-- Concrete coordinate parse function for witnesses: fails exactly on the
value `BAD`. -/
def sampleParse (s : String) : Option (ℚ × ℚ) :=
  if s = "BAD" then none else some (0, 0)

/-- Concrete five-row matched set for the export witnesses: the second of the
first three rows carries a malformed coordinate. -/
def fiveRows : List Rec :=
  [[("id", "A"), ("MGRS", "G1")],
   [("id", "B"), ("MGRS", "BAD")],
   [("id", "C"), ("MGRS", "G3")],
   [("id", "D"), ("MGRS", "G4")],
   [("id", "E"), ("MGRS", "G5")]]

/-- Concrete rows none of which parses, for the empty-export witness. -/
def allBadRows : List Rec :=
  [[("id", "A"), ("MGRS", "BAD")], [("id", "B"), ("MGRS", "BAD")]]

/-! ## Helper lemmas -/

theorem length_esHits (t : String) (page : List Rec) :
    (esHits t page).length = page.length := by
  simp [esHits]

theorem esHits_get (t : String) (page : List Rec) (i : Nat)
    (h : i < (esHits t page).length) :
    (esHits t page).get ⟨i, h⟩ =
      { index := t, doctype := "_doc", id := toString i, score := 1,
        source := page.get ⟨i, by simpa [length_esHits] using h⟩ } := by
  have h' : i < page.enum.length := by simpa [esHits] using h
  simp [esHits, List.get_eq_getElem, List.getElem_map, List.getElem_enum]

theorem length_insertRow (le : Rec → Rec → Bool) (x : Rec) (l : List Rec) :
    (insertRow le x l).length = l.length + 1 := by
  induction l with
  | nil => rfl
  | cons y ys ih =>
      by_cases h : le x y = true <;> simp [insertRow, h, ih, Nat.add_comm]

theorem length_sortRows (le : Rec → Rec → Bool) (l : List Rec) :
    (sortRows le l).length = l.length := by
  induction l with
  | nil => rfl
  | cons x xs ih => simp [sortRows, length_insertRow, ih]

theorem concatPages_eq (rows : List Rec) (pred : Rec → Bool)
    (le : Rec → Rec → Bool) (sizes : List Nat) (start : Nat) :
    concatPages rows pred le sizes start =
      ((sortRows le (rows.filter pred)).drop start).take sizes.sum := by
  induction sizes generalizing start with
  | nil => simp [concatPages]
  | cons s ss ih =>
      simp only [concatPages, searchModel, List.sum_cons, ih]
      rw [List.take_add, List.drop_drop]

theorem searchModel_full_hits (rows : List Rec) (pred : Rec → Bool)
    (le : Rec → Rec → Bool) :
    (searchModel rows pred le 0 ((rows.filter pred).length)).hits =
      sortRows le (rows.filter pred) := by
  simp only [searchModel, List.drop_zero]
  exact List.take_of_length_le (by rw [length_sortRows])

theorem classRank_le_two {v : String} {r : Nat} (hne : v ≠ "TOP SECRET")
    (h : classRank v = some r) : r ≤ 2 := by
  unfold classRank at h
  split_ifs at h <;> simp_all <;> omega

theorem classRank_two_eq {v : String} (h : classRank v = some 2) :
    v = "SECRET" := by
  unfold classRank at h
  split_ifs at h <;> simp_all

theorem maxClass_sound :
    ∀ {vs : List String} {r : Nat} {v : String},
      maxClass vs = some (r, v) → classRank v = some r ∧ v ∈ vs := by
  intro vs
  induction vs with
  | nil => intro r v h; simp [maxClass] at h
  | cons w ws ih =>
      intro r v h
      simp only [maxClass] at h
      cases hcw : classRank w with
      | none =>
          rw [hcw] at h
          obtain ⟨h1, h2⟩ := ih h
          exact ⟨h1, List.mem_cons_of_mem _ h2⟩
      | some rw_ =>
          rw [hcw] at h
          cases hmc : maxClass ws with
          | none =>
              rw [hmc] at h
              obtain ⟨rfl, rfl⟩ := Prod.mk.injEq .. ▸ Option.some.inj h
              exact ⟨hcw, List.mem_cons_self _ _⟩
          | some p =>
              rw [hmc] at h
              by_cases hlt : p.1 < rw_
              · simp only [hlt, if_pos] at h
                obtain ⟨rfl, rfl⟩ := Prod.mk.injEq .. ▸ Option.some.inj h
                exact ⟨hcw, List.mem_cons_self _ _⟩
              · simp only [hlt, if_neg, not_false_iff] at h
                obtain ⟨h1, h2⟩ := ih (h ▸ hmc)
                exact ⟨h1, List.mem_cons_of_mem _ h2⟩

theorem maxClass_complete :
    ∀ {vs : List String} {v : String} {r : Nat},
      v ∈ vs → classRank v = some r →
      ∃ r' v', maxClass vs = some (r', v') ∧ r ≤ r' := by
  intro vs
  induction vs with
  | nil => intro v r hmem; exact absurd hmem (List.not_mem_nil v)
  | cons w ws ih =>
      intro v r hmem hrank
      rcases List.mem_cons.mp hmem with rfl | htail
      · simp only [maxClass, hrank]
        cases hmc : maxClass ws with
        | none => exact ⟨r, v, rfl, Nat.le_refl r⟩
        | some p =>
            by_cases hlt : p.1 < r
            · exact ⟨r, v, by simp [hlt], Nat.le_refl r⟩
            · exact ⟨p.1, p.2, by simp [hlt], Nat.le_of_not_lt hlt⟩
      · obtain ⟨r₀, v₀, hmc, hle⟩ := ih htail hrank
        simp only [maxClass]
        cases hcw : classRank w with
        | none => exact ⟨r₀, v₀, hmc, hle⟩
        | some rw_ =>
            rw [hmc]
            by_cases hlt : r₀ < rw_
            · exact ⟨rw_, w, by simp [hlt],
                Nat.le_of_lt (Nat.lt_of_le_of_lt hle hlt)⟩
            · exact ⟨r₀, v₀, by simp [hlt], hle⟩

theorem exportRows_errors (parse : String → Option (ℚ × ℚ))
    (idField coordField : String) (rs : List Rec) :
    (exportRows parse idField coordField rs).2 =
      (rs.filter (parseFails parse coordField)).map
        (failEntry idField coordField) := by
  induction rs with
  | nil => rfl
  | cons r rs ih =>
      simp only [exportRows]
      cases hc : lookupD r coordField with
      | none => simp [List.filter_cons, parseFails, hc, failEntry, ih]
      | some s =>
          cases hp : parse s with
          | some c => simp [List.filter_cons, parseFails, hc, hp, failEntry, ih]
          | none => simp [List.filter_cons, parseFails, hc, hp, failEntry, ih]

theorem exportRows_conservation (parse : String → Option (ℚ × ℚ))
    (idField coordField : String) (rs : List Rec) :
    (exportRows parse idField coordField rs).1.length +
      (exportRows parse idField coordField rs).2.length = rs.length := by
  induction rs with
  | nil => rfl
  | cons r rs ih =>
      simp only [exportRows]
      cases hc : lookupD r coordField with
      | none => dsimp only; simp only [List.length_cons]; omega
      | some s =>
          cases hp : parse s with
          | some c =>
              simp only [hp]; simp only [List.length_cons]; omega
          | none =>
              simp only [hp]; simp only [List.length_cons]; omega

theorem exportRows_placemarks_nil (parse : String → Option (ℚ × ℚ))
    (idField coordField : String) (rs : List Rec)
    (hall : ∀ r ∈ rs, parseFails parse coordField r = true) :
    (exportRows parse idField coordField rs).1 = [] := by
  induction rs with
  | nil => rfl
  | cons r rs ih =>
      have hr := hall r (List.mem_cons_self r rs)
      have htail : ∀ x ∈ rs, parseFails parse coordField x = true :=
        fun x hx => hall x (List.mem_cons_of_mem r hx)
      simp only [exportRows]
      cases hc : lookupD r coordField with
      | none => simpa using ih htail
      | some s =>
          cases hp : parse s with
          | some c => simp [parseFails, hc, hp] at hr
          | none => simpa [hp] using ih htail

/-! ## Claim theorems -/

/-- C1: for every search request, `total` equals the number of rows satisfying
the predicate regardless of the `from`/`size` window; every page is a slice of
the unpaged (`from=0`, `size=total`) result; and the concatenation of the
pages of any sequence of consecutive non-overlapping windows covering
`[0, total)` equals the unpaged full result with no duplicates and no gaps. -/
theorem search_total_and_pagination (rows : List Rec) (pred : Rec → Bool)
    (le : Rec → Rec → Bool) (sizes : List Nat)
    (hcover : (rows.filter pred).length ≤ sizes.sum) :
    (∀ from_ size,
       (searchModel rows pred le from_ size).total =
         (rows.filter pred).length) ∧
    (∀ from_ size,
       (searchModel rows pred le from_ size).hits =
         ((searchModel rows pred le 0
             ((searchModel rows pred le from_ size).total)).hits.drop
           from_).take size) ∧
    concatPages rows pred le sizes 0 =
      (searchModel rows pred le 0
        ((searchModel rows pred le 0 0).total)).hits := by
  have htot : ∀ from_ size,
      (searchModel rows pred le from_ size).total =
        (rows.filter pred).length := fun _ _ => rfl
  refine ⟨htot, ?_, ?_⟩
  · intro from_ size
    rw [htot, searchModel_full_hits]
    rfl
  · rw [htot, searchModel_full_hits, concatPages_eq, List.drop_zero]
    exact List.take_of_length_le (by rw [length_sortRows]; exact hcover)

theorem search_total_and_pagination_witness :
    concatPages sampleRows (fun _ => true) (fun _ _ => true) [2, 2] 0 =
      (searchModel sampleRows (fun _ => true) (fun _ _ => true) 0
        ((searchModel sampleRows (fun _ => true) (fun _ _ => true) 0
          0).total)).hits :=
  (search_total_and_pagination sampleRows (fun _ => true) (fun _ _ => true)
    [2, 2] (by decide)).2.2

/-- C2 counterexample: the claim says `size` is clamped into `[1, 10000]` for
every search request, but the POST validation block (lines 170-174) only caps
`size` from above; `size = 0` passes through unchanged and the search executes
with `size = 0`, and the GET route rejects `size = 0` by validation instead of
clamping it. -/
theorem post_window_not_clamped_below :
    (postSearchWindow 0 5).1 = 0 ∧ ¬ (1 ≤ (postSearchWindow 0 5).1) ∧
    getSearchValidates 0 5 = false := by
  decide

/-- C2 (amended): the POST route clamps `size` only from above (values above
10000 become 10000, everything else — including 0 and negatives — passes
through) and clamps `from` from below to 0; the GET route does not clamp at
all but accepts a request exactly when `1 ≤ size ≤ 10000` and `0 ≤ from`,
rejecting it otherwise. -/
theorem post_window_clamp_amended (size from_ : Int) :
    (postSearchWindow size from_).1 ≤ 10000 ∧
    0 ≤ (postSearchWindow size from_).2 ∧
    (size ≤ 10000 → (postSearchWindow size from_).1 = size) ∧
    (10000 < size → (postSearchWindow size from_).1 = 10000) ∧
    (0 ≤ from_ → (postSearchWindow size from_).2 = from_) ∧
    (from_ < 0 → (postSearchWindow size from_).2 = 0) ∧
    (getSearchValidates size from_ = true ↔
      (1 ≤ size ∧ size ≤ 10000 ∧ 0 ≤ from_)) := by
  simp only [postSearchWindow, getSearchValidates, Bool.and_eq_true,
    decide_eq_true_eq]
  split_ifs <;> omega

theorem post_window_clamp_amended_witness :
    (postSearchWindow 20000 (-5)).1 = 10000 ∧
    (postSearchWindow 20000 (-5)).2 = 0 :=
  ⟨(post_window_clamp_amended 20000 (-5)).2.2.2.1 (by decide),
   (post_window_clamp_amended 20000 (-5)).2.2.2.2.2.1 (by decide)⟩

/-- C5: for every classification-like column sample that contains `SECRET`
and no `TOP SECRET` (in particular one containing exactly the values
UNCLASSIFIED, CONFIDENTIAL and SECRET), the table descriptor's
`highest_classification` is `SECRET`: the maximum under the fixed total order
UNCLASSIFIED < CONFIDENTIAL < SECRET < TOP SECRET, values outside the
vocabulary being ignored for ranking. -/
theorem highestClassification_secret (values : List String)
    (hmem : "SECRET" ∈ values) (htop : "TOP SECRET" ∉ values) :
    highestClassification values = "SECRET" := by
  obtain ⟨r', v', hmax, hle⟩ := maxClass_complete hmem (by rfl)
  obtain ⟨hrank, hmem'⟩ := maxClass_sound hmax
  have hne : v' ≠ "TOP SECRET" := fun he => htop (he ▸ hmem')
  have hub : r' ≤ 2 := classRank_le_two hne hrank
  have hr2 : r' = 2 := Nat.le_antisymm hub hle
  have hv : v' = "SECRET" := classRank_two_eq (hr2 ▸ hrank)
  simp [highestClassification, hmax, hv]

theorem highestClassification_secret_witness :
    highestClassification ["UNCLASSIFIED", "CONFIDENTIAL", "SECRET"] =
      "SECRET" :=
  highestClassification_secret _ (by decide) (by decide)

/-- C10: in the Elasticsearch envelope built by `search_table`, the hit at
page position `i` always has `_score = 1.0` and `_id = str(i)` (and carries
the page's `i`-th row as `_source`); the `_id` depends only on the position,
not on the table or the row's content, and the same row occurring at two
different page positions (as it does under two different `from` offsets)
receives two different `_id`s. -/
theorem esHits_position_id_score (t : String) (page : List Rec) (i : Nat)
    (h : i < (esHits t page).length) :
    ((esHits t page).get ⟨i, h⟩).score = 1 ∧
    ((esHits t page).get ⟨i, h⟩).id = toString i ∧
    ((esHits t page).get ⟨i, h⟩).source =
      page.get ⟨i, by simpa [length_esHits] using h⟩ ∧
    (∀ (t' : String) (page' : List Rec) (h' : i < (esHits t' page').length),
       ((esHits t' page').get ⟨i, h'⟩).id = toString i) ∧
    (esHits t [[("a", "1")], [("a", "1")]]).map (fun hh => hh.id) =
      ["0", "1"] := by
  refine ⟨?_, ?_, ?_, ?_, ?_⟩
  · rw [esHits_get]
  · rw [esHits_get]
  · rw [esHits_get]
  · intro t' page' h'
    rw [esHits_get]
  · rfl

theorem esHits_position_id_score_witness :
    ((esHits "reports" [[("a", "1")]]).get ⟨0, by decide⟩).id =
      toString 0 :=
  (esHits_position_id_score "reports" [[("a", "1")]] 0 (by decide)).2.1

/-- C6: the export limit is applied before per-row coordinate-parse
accounting and a parse failure never aborts the export: with `limit = 3` over
5 matching rows of which exactly one of the 3 considered rows has a malformed
coordinate, the metadata reports `requested = 3`, `exported = 2`,
`skipped = 1`, exported and skipped rows together exhaust the considered
rows, and every skipped row's identity and reason appear in the errors
list. -/
theorem export_limit_before_parse_accounting (rows : List Rec)
    (pred : Rec → Bool) (le : Rec → Rec → Bool)
    (parse : String → Option (ℚ × ℚ)) (idField coordField : String)
    (h5 : (rows.filter pred).length = 5)
    (h1 : (searchModel rows pred le 0 3).hits.countP
        (parseFails parse coordField) = 1) :
    (export_kmz rows pred le parse idField coordField 3).2.requested = 3 ∧
    (export_kmz rows pred le parse idField coordField 3).2.exported = 2 ∧
    (export_kmz rows pred le parse idField coordField 3).2.skipped = 1 ∧
    (export_kmz rows pred le parse idField coordField 3).2.exported +
        (export_kmz rows pred le parse idField coordField 3).2.skipped =
      (export_kmz rows pred le parse idField coordField 3).2.requested ∧
    ∀ r ∈ (searchModel rows pred le 0 3).hits,
      parseFails parse coordField r = true →
        failEntry idField coordField r ∈
          (export_kmz rows pred le parse idField coordField 3).2.errors := by
  have hlen : (searchModel rows pred le 0 3).hits.length = 3 := by
    simp only [searchModel, List.drop_zero, List.length_take,
      length_sortRows, h5]
    decide
  have hreq :
      (export_kmz rows pred le parse idField coordField 3).2.requested = 3 := by
    simpa [export_kmz] using hlen
  have hskip :
      (export_kmz rows pred le parse idField coordField 3).2.skipped = 1 := by
    simp only [export_kmz, exportRows_errors, List.length_map,
      ← List.countP_eq_length_filter]
    exact h1
  have hcons := exportRows_conservation parse idField coordField
    (searchModel rows pred le 0 3).hits
  have hexp :
      (export_kmz rows pred le parse idField coordField 3).2.exported = 2 := by
    have h2 : (exportRows parse idField coordField
        (searchModel rows pred le 0 3).hits).2.length = 1 := by
      simpa [export_kmz] using hskip
    have h3 : (exportRows parse idField coordField
        (searchModel rows pred le 0 3).hits).1.length = 2 := by omega
    simpa [export_kmz] using h3
  refine ⟨hreq, hexp, hskip, by omega, ?_⟩
  intro r hr hf
  simp only [export_kmz, exportRows_errors]
  exact List.mem_map_of_mem _ (List.mem_filter.mpr ⟨hr, hf⟩)

theorem export_limit_before_parse_accounting_witness :
    (export_kmz fiveRows (fun _ => true) (fun _ _ => true) sampleParse
        "id" "MGRS" 3).2.requested = 3 ∧
    (export_kmz fiveRows (fun _ => true) (fun _ _ => true) sampleParse
        "id" "MGRS" 3).2.exported = 2 ∧
    (export_kmz fiveRows (fun _ => true) (fun _ _ => true) sampleParse
        "id" "MGRS" 3).2.skipped = 1 :=
  ⟨(export_limit_before_parse_accounting fiveRows (fun _ => true)
      (fun _ _ => true) sampleParse "id" "MGRS" (by decide) (by decide)).1,
   (export_limit_before_parse_accounting fiveRows (fun _ => true)
      (fun _ _ => true) sampleParse "id" "MGRS" (by decide) (by decide)).2.1,
   (export_limit_before_parse_accounting fiveRows (fun _ => true)
      (fun _ _ => true) sampleParse "id" "MGRS" (by decide) (by decide)).2.2.1⟩

/-- C7: when zero considered rows convert successfully to coordinates, the
KML export route still succeeds: it returns the empty-but-valid document
(a non-empty byte payload) with metadata `exported = 0`, not an error. -/
theorem export_zero_converted_is_success (rows : List Rec) (pred : Rec → Bool)
    (le : Rec → Rec → Bool) (parse : String → Option (ℚ × ℚ))
    (idField coordField : String) (limit : Nat)
    (hall : ∀ r ∈ (searchModel rows pred le 0 limit).hits,
        parseFails parse coordField r = true) :
    export_kml_route rows pred le parse idField coordField true limit =
      Except.ok (kmlDoc [],
        (export_kmz rows pred le parse idField coordField limit).2) ∧
    (export_kmz rows pred le parse idField coordField limit).2.exported = 0 ∧
    kmlDoc [] ≠ "" := by
  have hnil : (exportRows parse idField coordField
      (searchModel rows pred le 0 limit).hits).1 = [] :=
    exportRows_placemarks_nil parse idField coordField _ hall
  have hp1 : (export_kmz rows pred le parse idField coordField limit).1 = [] := by
    simpa [export_kmz] using hnil
  have hexp :
      (export_kmz rows pred le parse idField coordField limit).2.exported
        = 0 := by
    simp [export_kmz, hnil]
  have hne : kmlDoc [] ≠ "" := by decide
  refine ⟨?_, hexp, hne⟩
  simp only [export_kml_route, hp1]
  simp [hne]

theorem export_zero_converted_is_success_witness :
    export_kml_route allBadRows (fun _ => true) (fun _ _ => true) sampleParse
        "id" "MGRS" true 10 =
      Except.ok (kmlDoc [],
        (export_kmz allBadRows (fun _ => true) (fun _ _ => true) sampleParse
          "id" "MGRS" 10).2) :=
  (export_zero_converted_is_success allBadRows (fun _ => true)
    (fun _ _ => true) sampleParse "id" "MGRS" 10 (by decide)).1

/-- C3 (the code evaluated at the failing input): switching to a nonexistent
path answers HTTP 500, not 404 — whatever the current state and however the
connection behaves, the `HTTPException(404)` raised at line 488 is caught by
the blanket `except Exception` (line 510) and re-raised as
`HTTPException(500, str(e))`, so the claimed 404/500 discrimination between a
missing database path and an internal switch failure does not survive the
handler. -/
theorem switch_missing_path_gives_500 (state : SMState)
    (connectDB : String → Option DB) :
    (switch_database_route (fun _ => false) connectDB state
        (some "/no/such/file.db")).1 =
      Except.error (500, "404: Database file not found: /no/such/file.db") :=
  rfl

/-- C4: a failed switch-database request made while a database is active
leaves the schema-manager state unchanged, so every schema, search and export
operation — each a function of that state — behaves exactly as before the
failed switch. -/
theorem failed_switch_is_noop (pathExists : String → Bool)
    (connectDB : String → Option DB) (db : DB) (dbPath : Option String)
    (e : Nat × String)
    (herr : (switch_database_route pathExists connectDB (SMState.conn db)
        dbPath).1 = Except.error e) :
    (switch_database_route pathExists connectDB (SMState.conn db) dbPath).2 =
      SMState.conn db ∧
    (∀ (table : String) (pred : Rec → Bool) (le : Rec → Rec → Bool)
        (from_ size : Nat),
       stateSearchResp
           (switch_database_route pathExists connectDB (SMState.conn db)
             dbPath).2 table pred le from_ size =
         stateSearchResp (SMState.conn db) table pred le from_ size) ∧
    ∀ (β : Type) (obs : SMState → β),
      obs (switch_database_route pathExists connectDB (SMState.conn db)
          dbPath).2 =
        obs (SMState.conn db) := by
  have hst : (switch_database_route pathExists connectDB (SMState.conn db)
      dbPath).2 = SMState.conn db := by
    cases dbPath with
    | none => rfl
    | some p =>
        by_cases hex : pathExists p = false
        · simp [switch_database_route, hex]
        · cases hc : connectDB p with
          | some db' =>
              exfalso
              have hok : (switch_database_route pathExists connectDB
                  (SMState.conn db) (some p)).1 =
                  Except.ok ⟨true, "Switched to database: " ++ p, p⟩ := by
                simp [switch_database_route, hex, hc]
              rw [hok] at herr
              exact Except.noConfusion herr
          | none => simp [switch_database_route, hex, hc]
  exact ⟨hst, fun table pred le from_ size => by rw [hst],
    fun β obs => by rw [hst]⟩

theorem failed_switch_is_noop_witness :
    (switch_database_route (fun _ => false) (fun _ => none)
        (SMState.conn ⟨[("reports", sampleRows)]⟩)
        (some "/no/such/file.db")).2 =
      SMState.conn ⟨[("reports", sampleRows)]⟩ :=
  (failed_switch_is_noop (fun _ => false) (fun _ => none)
    ⟨[("reports", sampleRows)]⟩ (some "/no/such/file.db")
    (500, "404: Database file not found: /no/such/file.db") rfl).1

/-- C8 (the code evaluated at the failing input): a successful index creation
returns the success message, but a `False` result from
`schema_manager.create_fts_index` (index engine unavailable or no free-text
columns) does not yield a non-fatal failure distinguishable from an internal
error — the `HTTPException(400)` raised at line 342 is caught by the blanket
`except Exception` (line 346) and re-raised as 500, the same class as an
internal error. -/
theorem fts_failure_indistinct_from_500 (table : String)
    (fields : Option (List String)) :
    create_fts_index_route (fun _ _ => true) true table fields =
      Except.ok ("FTS5 index created for table " ++ table) ∧
    create_fts_index_route (fun _ _ => false) true table fields =
      Except.error (500,
        "400: Failed to create FTS5 index. Check if FTS5 is available and table has text columns.") :=
  ⟨rfl, rfl⟩

/-- C9 counterexample: for a stored record that already has a `table` column,
`record['table'] = table_name` (line 277) overwrites the stored value, so the
returned mapping is not the stored record with an additional `table` field —
the stored field's value is lost. -/
theorem get_record_overwrites_stored_table_field :
    get_record_route (fun _ _ => some [("table", "orig"), ("x", "1")]) true
        "reports" "7" =
      Except.ok [("table", "reports"), ("x", "1")] ∧
    ¬ preservesAndInjects [("table", "orig"), ("x", "1")]
        [("table", "reports"), ("x", "1")] "reports" := by
  refine ⟨rfl, ?_⟩
  intro h
  exact absurd (h.2 "table" "orig" (by decide)) (by decide)

theorem lookupD_dictSet_self (r : Rec) (k v : String) :
    lookupD (dictSet r k v) k = some v := by
  induction r with
  | nil => simp [dictSet, lookupD]
  | cons p rest ih =>
      obtain ⟨a, b⟩ := p
      by_cases h : a = k <;> simp [dictSet, lookupD, h, ih]

theorem lookupD_dictSet_other (r : Rec) (k v k' : String) (hne : k' ≠ k) :
    lookupD (dictSet r k v) k' = lookupD r k' := by
  induction r with
  | nil => simp [dictSet, lookupD, Ne.symm hne]
  | cons p rest ih =>
      obtain ⟨a, b⟩ := p
      by_cases h : a = k
      · simp [dictSet, lookupD, h, Ne.symm hne]
      · simp [dictSet, lookupD, h, ih]

/-- C9 (amended): if the record exists (a nonempty mapping), the route
returns the stored record with its `table` key set to the table name — the
`table` field maps to the table name and every stored field other than
`table` keeps its value (a stored `table` column is overwritten rather than
preserved); if the record does not exist, the route fails with 404, the
handler's `except HTTPException: raise` keeping the status intact. -/
theorem get_record_route_spec (lookup : String → String → Option Rec)
    (table id : String) :
    (∀ r, lookup table id = some r → r ≠ [] →
       get_record_route lookup true table id =
         Except.ok (dictSet r "table" table) ∧
       lookupD (dictSet r "table" table) "table" = some table ∧
       ∀ k, k ≠ "table" → lookupD (dictSet r "table" table) k = lookupD r k) ∧
    (lookup table id = none →
       get_record_route lookup true table id =
         Except.error (404,
           "Record " ++ id ++ " not found in table " ++ table)) := by
  constructor
  · intro r hfound hne
    refine ⟨?_, lookupD_dictSet_self r "table" table,
      fun k hk => lookupD_dictSet_other r "table" table k hk⟩
    simp [get_record_route, hfound, List.isEmpty_iff, hne]
  · intro hnone
    simp [get_record_route, hnone]

theorem get_record_route_spec_witness :
    get_record_route (fun _ _ => some [("id", "7")]) true "reports" "7" =
      Except.ok (dictSet [("id", "7")] "table" "reports") :=
  ((get_record_route_spec (fun _ _ => some [("id", "7")]) "reports" "7").1
    [("id", "7")] rfl (by decide)).1

end CoreADE
